import Mathlib

set_option autoImplicit false

/-!
Shallow embedding of the langchain wrapper repository (src/src/*.py):
configuration loading, CLI mode dispatch, the LLM client with its lazy
chat handle, the memory factory, prompt formatting, the naive token
counter, the structured-output parser builder, and the exception
decorator.  Python dictionaries with a fixed key set are embedded as
structures of `Option` fields (a `none` field is an absent key), Python
`None`-able attributes as `Option`, floats restricted to the rationals,
and raised exceptions as `Except PyErr`.
-/

namespace LangchainRepo

/-- Python exception classes that the embedded code can raise. -/
inductive PyErr where
  | valueError (msg : String)
  | attributeError (msg : String)
  | typeError (msg : String)
  deriving Repr, DecidableEq

/-- Python `x or d` for an optional string `x` (absent or empty string is
falsy and falls through to `d`). -/
def pyOrS : Option String → String → String
  | none, d => d
  | some s, d => if s = "" then d else s

/-- Python `x or d` for an optional numeric `x` (absent or zero is falsy
and falls through to `d`). -/
def pyOrR : Option Rat → Rat → Rat
  | none, d => d
  | some r, d => if r = 0 then d else r

/-- Truthiness of an optional string argument (`None` and `""` are falsy). -/
def optStrTruthy : Option String → Bool
  | none => false
  | some s => s ≠ ""

/-! ## config.py -/

/-- A field of a schema: the `name` and `description` entries of one item
of a schema list in the configuration. -/
def SchemaField := String × String
deriving instance Repr, DecidableEq for SchemaField

/-- The `schemas` section: schema name to its ordered field list. -/
def SchemasDict := List (String × List SchemaField)
deriving instance Repr, DecidableEq for SchemasDict

/-- The `examples` section: example name to its key-value entries. -/
def ExamplesDict := List (String × List (String × String))
deriving instance Repr, DecidableEq for ExamplesDict

/-- The `defaults` sub-mapping of the YAML configuration; every key may be
absent. -/
structure ConfigDefaults where
  model : Option String := none
  temperature : Option Rat := none
  memory : Option String := none
  prompt : Option String := none
  template : Option String := none
  source : Option String := none
  style : Option String := none
  schema_name : Option String := none
  schema_template : Option String := none
  deriving Repr, DecidableEq

/-- The top-level YAML configuration mapping, restricted to the keys the
code reads; every key may be absent. -/
structure ConfigData where
  defaults : Option ConfigDefaults := none
  model : Option String := none
  temperature : Option Rat := none
  prompt : Option String := none
  template : Option String := none
  source : Option String := none
  style : Option String := none
  schemas : Option SchemasDict := none
  examples : Option ExamplesDict := none
  memory : Option (List (String × String)) := none
  deriving Repr, DecidableEq

/-- The attribute state of a `ConfigManager` object after `__init__`.
`_config_data = none` models the attribute never having been assigned:
`__init__` only assigns `self._config_data` inside the
`if config_data and "defaults" in config_data:` block. -/
structure ConfigManager where
  _model : String
  _temperature : Rat
  _memory : String
  _prompt : String
  _template : String
  _source : String
  _style : String
  _schema_name : String
  _schema_template : String
  _config_data : Option ConfigData
  deriving Repr, DecidableEq

/-- The hard-coded defaults assigned at the top of `ConfigManager.__init__`. -/
def ConfigManager.defaultState : ConfigManager where
  _model := "gemma3:12b"
  _temperature := 0
  _memory := "buffer"
  _prompt := "What is 1+1?"
  _template := "Format the following message: {source} into the style: {style}"
  _source := ""
  _style := ""
  _schema_name := ""
  _schema_template := ""
  _config_data := none

/-- `ConfigManager.__init__(config_data)`.  The argument is `none` for a
falsy `config_data` (Python `None` or the empty dict).  The overrides and
the `self._config_data` assignment happen only when `config_data` is
truthy and contains the key `"defaults"`. -/
def ConfigManager.init (config_data : Option ConfigData) : ConfigManager :=
  match config_data with
  | some cd =>
    match cd.defaults with
    | some d =>
      { ConfigManager.defaultState with
        _model := d.model.getD ConfigManager.defaultState._model
        _temperature := d.temperature.getD ConfigManager.defaultState._temperature
        _memory := d.memory.getD ConfigManager.defaultState._memory
        _prompt := d.prompt.getD ConfigManager.defaultState._prompt
        _template := d.template.getD ConfigManager.defaultState._template
        _source := d.source.getD ConfigManager.defaultState._source
        _style := d.style.getD ConfigManager.defaultState._style
        _schema_name := d.schema_name.getD ConfigManager.defaultState._schema_name
        _schema_template := d.schema_template.getD ConfigManager.defaultState._schema_template
        _config_data := some cd }
    | none => ConfigManager.defaultState
  | none => ConfigManager.defaultState

/-- Reading `self._config_data`: raises `AttributeError` when `__init__`
never assigned it. -/
def ConfigManager.config_data_attr (c : ConfigManager) : Except PyErr ConfigData :=
  match c._config_data with
  | some cd => .ok cd
  | none => .error (.attributeError "ConfigManager object has no attribute _config_data")

/-- The dict returned by the `get_model_params` property; each value can
be Python `None`. -/
structure ModelParamsDict where
  model : Option String
  temperature : Option Rat
  deriving Repr, DecidableEq

/-- `ConfigManager.get_model_params`: builds
`{"model": self._model or self._config_data.get("model"),
  "temperature": self._temperature or self._config_data.get("temperature")}`.
Each `or` only touches `_config_data` when the attribute value is falsy. -/
def ConfigManager.get_model_params (c : ConfigManager) : Except PyErr ModelParamsDict := do
  let model ←
    if c._model = "" then do
      let cd ← c.config_data_attr
      pure cd.model
    else pure (some c._model)
  let temperature ←
    if c._temperature = 0 then do
      let cd ← c.config_data_attr
      pure cd.temperature
    else pure (some c._temperature)
  pure { model := model, temperature := temperature }

/-- `ConfigManager.get_schemas`: `self._config_data.get("schemas", {})`. -/
def ConfigManager.get_schemas (c : ConfigManager) : Except PyErr SchemasDict := do
  let cd ← c.config_data_attr
  pure (cd.schemas.getD [])

/-- `ConfigManager.get_examples`: `self._config_data.get("examples", {})`. -/
def ConfigManager.get_examples (c : ConfigManager) : Except PyErr ExamplesDict := do
  let cd ← c.config_data_attr
  pure (cd.examples.getD [])

/-- `ConfigManager.get_memory_params`:
`self._config_data.get("memory", self.memory)`.  After `_config_data` is
read, the default argument `self.memory` is evaluated eagerly, and no
attribute named `memory` exists on the class (the stored one is
`_memory`), so the access raises `AttributeError` even when the key is
present. -/
def ConfigManager.get_memory_params (c : ConfigManager) :
    Except PyErr (List (String × String)) := do
  let _ ← c.config_data_attr
  .error (.attributeError "ConfigManager object has no attribute memory")

/-! ## main.py -/

/-- `load_configurations`: reads and YAML-parses the file; the outcome of
the file read is passed as an oracle.  A read or parse failure is caught
and an empty mapping is returned; `yaml.safe_load` can also return `None`
for an empty file, and both falsy outcomes are modelled as `none`. -/
def load_configurations (fileRead : Except String (Option ConfigData)) : Option ConfigData :=
  match fileRead with
  | .ok c => c
  | .error _ => none

/-- The five valid mode strings checked by `main`. -/
def modeFunctionNames : List String := ["prompt", "chat", "rag", "agent", "evaluate"]

/-- The callable names in the module namespace of main.py, as consulted by
`globals().get(mode)` in `run_mode` (imported classes included, since
classes are callable; imported modules are not callable and are left out). -/
def mainCallableGlobals : List String :=
  ["ConfigManager", "LLMClient", "TextProcessor", "MemoryFactory",
   "mode_selector", "load_configurations", "prompt", "chat", "rag", "agent",
   "evaluate", "run_mode", "main"]

/-- `run_mode(mode, conf)`: looks the mode up among the module globals and
calls it when callable.  Returns the name of the function called, if any. -/
def run_mode (mode : String) : Option String :=
  if mode ∈ mainCallableGlobals then some mode else none

/-- What a non-raising execution of `main` produced: the `ConfigManager`
built from the loaded configuration, and the name of the mode function
dispatched to (if any). -/
structure MainOutcome where
  conf : ConfigManager
  dispatched : Option String
  deriving Repr, DecidableEq

/-- `main()`: validates the user-entered mode string, then loads the
configuration file (file-read outcome passed as an oracle) and dispatches
through `run_mode`. -/
def main (fileRead : Except String (Option ConfigData)) (mode : String) :
    Except PyErr MainOutcome :=
  if mode = "" then
    .error (.valueError "Mode must be specified. Available modes: prompt, chat, rag, agent and evaluate")
  else if mode ∉ modeFunctionNames then
    .error (.valueError "Invalid mode. Available modes: prompt, chat, rag, agent and evaluate")
  else
    let conf_data := load_configurations fileRead
    .ok { conf := ConfigManager.init conf_data, dispatched := run_mode mode }

/-! ## llm.py -/

/-- The runtime class of a constructed chat-model handle. -/
inductive ChatModelKind where
  | chatOllama
  | customTokenCount
  deriving Repr, DecidableEq

/-- A constructed chat-model object.  `objId` models Python object
identity: every constructor call allocates a distinct id. -/
structure ChatModel where
  objId : Nat
  kind : ChatModelKind
  model : String
  temperature : Rat
  deriving Repr, DecidableEq

/-- The mutable state of an `LLMClient`: its stored model parameters, the
`_chat_instance` attribute, and the allocator for object identities. -/
structure LLMClientState where
  _model : String
  _temperature : Rat
  _chat_instance : Option ChatModel
  nextObjId : Nat
  deriving Repr, DecidableEq

/-- The client state right after `LLMClient.__init__`, which sets
`self._chat_instance = None`. -/
def LLMClientState.init (model : String) (temperature : Rat) : LLMClientState where
  _model := model
  _temperature := temperature
  _chat_instance := none
  nextObjId := 0

/-- `LLMClient.infer(custom_model, custom_temperature, custom_token_count)`.
The assigned conditional expression parses as
`(self._chat_instance or ChatOllama(...)) if not custom_token_count
 else CustomTokenCountLLM(...)`,
so with `custom_token_count` true a fresh `CustomTokenCountLLM` is built
unconditionally; otherwise the cached instance is reused when present. -/
def LLMClient.infer (custom_model : Option String) (custom_temperature : Option Rat)
    (custom_token_count : Bool) (s : LLMClientState) : ChatModel × LLMClientState :=
  if custom_token_count then
    let inst : ChatModel :=
      { objId := s.nextObjId, kind := .customTokenCount,
        model := s._model, temperature := s._temperature }
    (inst, { s with _chat_instance := some inst, nextObjId := s.nextObjId + 1 })
  else
    match s._chat_instance with
    | some inst => (inst, s)
    | none =>
      let inst : ChatModel :=
        { objId := s.nextObjId, kind := .chatOllama,
          model := pyOrS custom_model s._model,
          temperature := pyOrR custom_temperature s._temperature }
      (inst, { s with _chat_instance := some inst, nextObjId := s.nextObjId + 1 })

/-! ## memory.py -/

/-- The `**kwargs` accepted by `MemoryFactory.build`, restricted to the
documented keys; a `none` field is an absent keyword. -/
structure BuildKwargs where
  window_size : Option Nat := none
  max_token_limit : Option Nat := none
  verbose : Option Bool := none
  deriving Repr, DecidableEq

/-- The memory-manager wrapper returned by the factory, carrying the
chat-model handle it was built around and its strategy parameters. -/
inductive MemoryManager where
  | bufferMemoryManager (llm : ChatModel) (verbose : Bool)
  | windowMemoryManager (llm : ChatModel) (window_size : Nat) (verbose : Bool)
  | tokenMemoryManager (llm : ChatModel) (max_token_limit : Nat) (verbose : Bool)
  | summaryMemoryManager (llm : ChatModel) (max_token_limit : Nat) (verbose : Bool)
  deriving Repr, DecidableEq

/-- The attribute state of a `MemoryFactory` after `__init__` read the
`memory` section of the configuration. -/
structure MemoryFactory where
  memory_type : String
  window_size : Nat
  max_token_limit : Nat
  verbose : Bool
  deriving Repr, DecidableEq

/-- `MemoryFactory.build(llm, custom_memory, **kwargs)`.  The effective
memory name is `custom_memory or self.memory_type`; `llm.infer` is called
(with `custom_token_count` set for the token and summary strategies)
before the dispatch, so the client state is threaded through; the buffer
branch forwards `**kwargs` verbatim to `BufferMemoryManager`, whose
constructor only accepts `verbose`, so a `window_size` or
`max_token_limit` keyword raises `TypeError` there. -/
def MemoryFactory.build (f : MemoryFactory) (llm : LLMClientState)
    (custom_memory : Option String) (kwargs : BuildKwargs) :
    Except PyErr MemoryManager × LLMClientState :=
  let memory := pyOrS custom_memory f.memory_type
  let window_size := kwargs.window_size.getD f.window_size
  let max_token_limit := kwargs.max_token_limit.getD f.max_token_limit
  let verbose := kwargs.verbose.getD f.verbose
  let inferred := LLMClient.infer none none (memory == "token" || memory == "summary") llm
  let llmInstance := inferred.1
  let llm2 := inferred.2
  if memory = "buffer" then
    if kwargs.window_size.isSome || kwargs.max_token_limit.isSome then
      (.error (.typeError "BufferMemoryManager got an unexpected keyword argument"), llm2)
    else
      (.ok (.bufferMemoryManager llmInstance (kwargs.verbose.getD false)), llm2)
  else if memory = "window" then
    (.ok (.windowMemoryManager llmInstance window_size verbose), llm2)
  else if memory = "token" then
    (.ok (.tokenMemoryManager llmInstance max_token_limit verbose), llm2)
  else if memory = "summary" then
    (.ok (.summaryMemoryManager llmInstance max_token_limit verbose), llm2)
  else
    (.error (.valueError ("Unknown memory type: " ++ memory)), llm2)

/-! ## prompting.py -/

/-- A model-ready message.  `templateFormatted` stands for the message
list a `ChatPromptTemplate` produces from `format_messages(**kwargs)`,
the external toolkit call being kept abstract as a constructor that
records the template and the keyword arguments passed. -/
inductive Message where
  | humanMessage (content : String)
  | templateFormatted (template : String) (kwargs : List (String × String))
  deriving Repr, DecidableEq

/-- `template.format_messages(**kwargs)` on a `ChatPromptTemplate` built
from `template`: the external toolkit call, modelled abstractly. -/
def chatTemplateFormatMessages (template : String) (kwargs : List (String × String)) :
    List Message :=
  [Message.templateFormatted template kwargs]

/-- An element of a list passed to `format_list_of_texts`: either a plain
string or an object that already is a `HumanMessage`. -/
inductive PromptListItem where
  | itemStr (s : String)
  | itemMessage (m : Message)
  deriving Repr, DecidableEq

/-- The per-element conversion of `format_list_of_texts`:
`prompt if isinstance(prompt, HumanMessage) else HumanMessage(content=prompt)`. -/
def PromptListItem.toMessage : PromptListItem → Message
  | .itemStr s => .humanMessage s
  | .itemMessage m => m

/-- The runtime value passed to `PromptManager.formatter`: a string, a
list, a `ChatPromptTemplate` (identified by the template string it was
built from), or a value of any other type, of which only its truthiness
matters (`pother false` covers Python `None`). -/
inductive PromptVal where
  | pstr (s : String)
  | plist (items : List PromptListItem)
  | ptemplate (template : String)
  | pother (truthyFlag : Bool)
  deriving Repr, DecidableEq

/-- Python truthiness of a `formatter` argument: empty strings and empty
lists are falsy, template objects are truthy. -/
def PromptVal.truthy : PromptVal → Bool
  | .pstr s => s ≠ ""
  | .plist items => items ≠ []
  | .ptemplate _ => true
  | .pother t => t

/-- `PromptManager.formatter(prompt, **kwargs)`.  A falsy prompt takes the
`self.format_simple_text(self.default_prompt)` branch, and no attribute
`default_prompt` is ever assigned on this class, so that branch raises
`AttributeError`.  Otherwise the method dispatches on the runtime type. -/
def PromptManager.formatter (prompt : PromptVal) (kwargs : List (String × String)) :
    Except PyErr (List Message) :=
  if prompt.truthy = false then
    .error (.attributeError "PromptManager object has no attribute default_prompt")
  else
    match prompt with
    | .pstr s => .ok [.humanMessage s]
    | .plist items => .ok (items.map PromptListItem.toMessage)
    | .ptemplate t => .ok (chatTemplateFormatMessages t kwargs)
    | .pother _ =>
      .error (.valueError "Unsupported prompt type. Must be str, list, or ChatPromptTemplate object.")

/-! ## llm.py: CustomTokenCountLLM -/

/-- The characters Python `str.split()` treats as whitespace (ASCII range:
space, tab, newline, carriage return, vertical tab, form feed). -/
def isPyWs (c : Char) : Bool :=
  c = ' ' ∨ c = '\t' ∨ c = '\n' ∨ c = '\r' ∨ c = Char.ofNat 11 ∨ c = Char.ofNat 12

/-- The scanning loop of Python `str.split()` with no separator: `acc`
holds the reversed characters of the word being read; whitespace closes
the current word (if any) and words are emitted in order, empty pieces
never appearing. -/
def pySplitAux : List Char → List Char → List (List Char)
  | [], acc => if acc = [] then [] else [acc.reverse]
  | c :: cs, acc =>
    if isPyWs c then
      (if acc = [] then [] else [acc.reverse]) ++ pySplitAux cs []
    else
      pySplitAux cs (c :: acc)

/-- Python `text.split()`. -/
def pySplit (text : String) : List String :=
  (pySplitAux text.data []).map List.asString

/-- `CustomTokenCountLLM.get_num_tokens(text)`: `len(text.split())`. -/
def CustomTokenCountLLM.get_num_tokens (text : String) : Nat :=
  (pySplit text).length

/-- A message passed to `get_num_tokens_from_messages`, sorted by which
branch of the content extraction applies: an object with a `content`
attribute, a dict with a `"content"` key, or anything else, for which
`str(message)` is used. -/
inductive PyMessage where
  | objWithContent (content : String)
  | dictWithContent (content : String)
  | dictWithoutContent (asString : String)
  | otherValue (asString : String)
  deriving Repr, DecidableEq

/-- The content-extraction cascade inside `get_num_tokens_from_messages`. -/
def PyMessage.extractedContent : PyMessage → String
  | .objWithContent c => c
  | .dictWithContent c => c
  | .dictWithoutContent s => s
  | .otherValue s => s

/-- `CustomTokenCountLLM.get_num_tokens_from_messages(messages)`: the
running `count` accumulated over the message list. -/
def CustomTokenCountLLM.get_num_tokens_from_messages (messages : List PyMessage) : Nat :=
  messages.foldl
    (fun count m => count + CustomTokenCountLLM.get_num_tokens m.extractedContent) 0

/-- Reference word counter, written independently of the split algorithm:
the number of positions where a non-whitespace character is preceded by
whitespace or by the start of the text, i.e. the number of
whitespace-separated words.  `prevWs` records whether the previous
character was whitespace (true at the start). -/
def countWordStarts : List Char → Bool → Nat
  | [], _ => 0
  | c :: cs, prevWs =>
    (if !isPyWs c && prevWs then 1 else 0) + countWordStarts cs (isPyWs c)

/-! ## parsing.py -/

/-- The `ParamsConfig` dataclass with its default field values. -/
structure ParamsConfig where
  model : String := "gemma3:12b"
  temperature : Rat := 0
  prompt : String := "What is 1+1?"
  template : String := "Format the following message: {source} into the style: {style}"
  source : String := ""
  style : String := ""
  schema_name : String := ""
  schema_template : String :=
    "For the following text, extract information according to these instructions:\n{format_instructions}\n\nText: {text}"
  deriving Repr, DecidableEq

/-- The value held by the `_template` attribute of a `Parser`: either a
raw template string (as assigned by `__init__`, `update_params`,
`load_params_from_config` and the custom-template path of
`get_formatted_completion`) or a built `ChatPromptTemplate` (as assigned
by the `template` property setter), identified by its template string. -/
inductive TemplateVal where
  | tStr (s : String)
  | tTemplate (template : String)
  deriving Repr, DecidableEq

/-- Python truthiness of a `_template` value: the empty string is falsy, a
template object is truthy. -/
def TemplateVal.truthy : TemplateVal → Bool
  | .tStr s => s ≠ ""
  | .tTemplate _ => true

/-- The attribute state of a `Parser` object. -/
structure Parser where
  _params : ParamsConfig
  _model_name : String
  _model_temperature : Rat
  _template : TemplateVal
  _schemas : SchemasDict
  _examples : ExamplesDict
  deriving Repr, DecidableEq

/-- The keyword arguments of a call to `Parser.update_params`, one
optional slot per `ParamsConfig` attribute (values carrying the type the
attribute is documented with); `extra` lists keyword names that are not
attributes of `ParamsConfig`, which `hasattr` filters out before the
value is even inspected. -/
structure UpdateKwargs where
  model : Option String := none
  temperature : Option Rat := none
  prompt : Option String := none
  template : Option String := none
  source : Option String := none
  style : Option String := none
  schema_name : Option String := none
  schema_template : Option String := none
  extra : List String := []
  deriving Repr, DecidableEq

/-- `Parser.update_params(**kwargs)`: each known key is assigned only when
its value is truthy (`pyOrS`/`pyOrR` keep the old value on `none`, the
empty string and zero); a truthy `template` value is additionally copied
into the `_template` attribute; keys that are not `ParamsConfig`
attributes are ignored. -/
def Parser.update_params (p : Parser) (kw : UpdateKwargs) : Parser :=
  let ps := p._params
  let psNew : ParamsConfig :=
    { model := pyOrS kw.model ps.model
      temperature := pyOrR kw.temperature ps.temperature
      prompt := pyOrS kw.prompt ps.prompt
      template := pyOrS kw.template ps.template
      source := pyOrS kw.source ps.source
      style := pyOrS kw.style ps.style
      schema_name := pyOrS kw.schema_name ps.schema_name
      schema_template := pyOrS kw.schema_template ps.schema_template }
  let tNew : TemplateVal :=
    match kw.template with
    | some s => if s = "" then p._template else .tStr s
    | none => p._template
  { p with _params := psNew, _template := tNew }

/-- `Parser.load_params_from_config(config)`: collects the `defaults`
entries (dropping `None`s, which the optional fields of `UpdateKwargs`
model as absent) and applies `update_params`, loads `examples` and
`schemas` when present, and finally copies a truthy `params.template`
into `_template` as a raw string. -/
def Parser.load_params_from_config (p : Parser) (config : ConfigData) : Parser :=
  let p1 :=
    match config.defaults with
    | some d =>
      p.update_params
        { model := d.model, temperature := d.temperature, prompt := d.prompt,
          template := d.template, source := d.source, style := d.style,
          schema_name := d.schema_name, schema_template := d.schema_template }
    | none => p
  let p2 := match config.examples with
    | some e => { p1 with _examples := e }
    | none => p1
  let p3 := match config.schemas with
    | some s => { p2 with _schemas := s }
    | none => p2
  if p3._params.template = "" then p3 else { p3 with _template := .tStr p3._params.template }

/-- The `Parser` state right after the default assignments of `__init__`
(before any configuration is loaded): `_template` is the raw default
template string, schemas and examples are empty. -/
def Parser.base : Parser :=
  let ps : ParamsConfig := {}
  { _params := ps, _model_name := ps.model, _model_temperature := ps.temperature,
    _template := .tStr ps.template, _schemas := [], _examples := [] }

/-- `Parser.__init__(config)`: loads the provided configuration when
truthy. -/
def Parser.init (config : Option ConfigData) : Parser :=
  match config with
  | some cd => Parser.base.load_params_from_config cd
  | none => Parser.base

/-- `Parser._get_llm(model, temperature)`: the (model, temperature) pair
the `ChatOllama` handle is configured with; falsy overrides fall back to
the stored attributes.  No parser state is touched. -/
def Parser.get_llm (p : Parser) (model : Option String) (temperature : Option Rat) :
    String × Rat :=
  (pyOrS model p._model_name, pyOrR temperature p._model_temperature)

/-- `Parser.format_prompt(template, source, style)`: the local `template`
binding is computed and then unused; the method formats `self._template`
directly, which succeeds only when `_template` holds a built
`ChatPromptTemplate` (a raw string has no `format_messages`, giving
`AttributeError`). -/
def Parser.format_prompt (p : Parser) (template source style : Option String) :
    Except PyErr (List Message) :=
  let _unusedLocal := template
  match p._template with
  | .tTemplate t =>
    .ok (chatTemplateFormatMessages t
      [("style", pyOrS style p._params.style), ("source", pyOrS source p._params.source)])
  | .tStr _ => .error (.attributeError "str object has no attribute format_messages")

/-- `Parser.get_formatted_completion(source, style, custom_template, model,
temperature)`.  The LLM invocation is passed as an oracle `llmCall`
receiving the configured (model, temperature) pair and the formatted
messages.  A truthy `custom_template` is saved-and-swapped into
`_template`; the `finally` block restores the saved value only when it is
itself truthy.  Note the body calls `self.format_prompt(source, style)`
positionally, so `source` lands in the `template` parameter and `style`
in the `source` parameter. -/
def Parser.get_formatted_completion (p : Parser)
    (source style custom_template model : Option String) (temperature : Option Rat)
    (llmCall : String × Rat → List Message → Except PyErr String) :
    Except PyErr String × Parser :=
  let llm := p.get_llm (some (pyOrS model p._model_name))
    (some (pyOrR temperature p._model_temperature))
  let useCustom := optStrTruthy custom_template
  let original_template : Option TemplateVal :=
    if useCustom then some p._template else none
  let p1 : Parser :=
    if useCustom then { p with _template := .tStr (custom_template.getD "") } else p
  let tryResult : Except PyErr String := do
    let msgs ← p1.format_prompt source style none
    llmCall llm msgs
  let p2 : Parser :=
    match original_template with
    | some orig => if orig.truthy then { p1 with _template := orig } else p1
    | none => p1
  (tryResult, p2)

/-- A `ResponseSchema` of the external toolkit: a named, described field. -/
structure ResponseSchema where
  name : String
  description : String
  deriving Repr, DecidableEq

/-- The structured-output parser of the external toolkit, identified by
the response schemas it was built from
(`StructuredOutputParser.from_response_schemas`). -/
structure StructuredOutputParser where
  response_schemas : List ResponseSchema
  deriving Repr, DecidableEq

/-- Dict lookup in the `_schemas` mapping. -/
def lookupSchema (schemas : SchemasDict) (name : String) : Option (List SchemaField) :=
  (schemas.find? (fun kv => kv.1 == name)).map Prod.snd

/-- `Parser.create_schema_parser(schema_name)` (Lean name adjusted): the
effective name is `schema_name or self._params.schema_name`; a falsy or
unknown effective name raises `ValueError`, otherwise one
`ResponseSchema` is built per field of the named schema, in field order. -/
def Parser.createSchemaParser (p : Parser) (schema_name : Option String) :
    Except PyErr StructuredOutputParser :=
  let name := pyOrS schema_name p._params.schema_name
  if name = "" then
    .error (.valueError ("Schema " ++ name ++ " not found in loaded schemas"))
  else
    match lookupSchema p._schemas name with
    | none => .error (.valueError ("Schema " ++ name ++ " not found in loaded schemas"))
    | some fields =>
      .ok { response_schemas := fields.map (fun f => { name := f.1, description := f.2 }) }

/-! ## decorators.py -/

/-- A Python runtime value as far as the decorator's logging needs it. -/
inductive PyVal where
  | vStr (s : String)
  | vNum (r : Rat)
  | vBool (b : Bool)
  | vNone
  deriving Repr, DecidableEq

/-- The raised exception the wrapper observes: its class name and message. -/
structure ExceptionInfo where
  excType : String
  message : String
  deriving Repr, DecidableEq

/-- The call a decorated function receives: positional arguments, whether
the first positional argument has an attribute named like the wrapped
function (the `self` heuristic of the logger), and keyword arguments. -/
structure CallContext where
  args : List PyVal
  firstArgHasMethod : Bool
  kwargs : List (String × PyVal)
  deriving Repr, DecidableEq

/-- The kwargs filter of the logger: string values longer than 50
characters are truncated with an ellipsis. -/
def truncateForLog : PyVal → PyVal
  | .vStr s => if s.length > 50 then .vStr ((s.take 50) ++ "...") else .vStr s
  | v => v

/-- `filtered_kwargs` in the wrapper. -/
def filteredKwargs (kwargs : List (String × PyVal)) : List (String × PyVal) :=
  kwargs.map (fun kv => (kv.1, truncateForLog kv.2))

/-- A crude printable rendering of a value for the log text. -/
def PyVal.toLogString : PyVal → String
  | .vStr s => s
  | .vNum r => toString r
  | .vBool b => toString b
  | .vNone => "None"

/-- `call_args` in the wrapper:
`args[1:] if args and hasattr(args[0], func.__name__) else args`. -/
def callArgsForLog (ctx : CallContext) : List PyVal :=
  if ctx.args ≠ [] && ctx.firstArgHasMethod then ctx.args.tail else ctx.args

/-- The log message the wrapper assembles on an exception. -/
def buildLogMessage (module_name function_name : String) (e : ExceptionInfo)
    (ctx : CallContext) : String :=
  "======== Exception Detected ========\n"
    ++ "Module: " ++ module_name ++ "\n"
    ++ "Function: " ++ function_name ++ "\n"
    ++ "Type: " ++ e.excType ++ "\n"
    ++ "Message: " ++ e.message ++ "\n"
    ++ "Arguments: " ++ String.intercalate ", " ((callArgsForLog ctx).map PyVal.toLogString) ++ "\n"
    ++ "Parameters: "
    ++ String.intercalate ", "
        ((filteredKwargs ctx.kwargs).map (fun kv => kv.1 ++ "=" ++ kv.2.toLogString)) ++ "\n"
    ++ "===================================="

/-- The `handle_exception` decorator applied to a function of one call
context: the wrapped call either returns or raises; on a raise the
wrapper logs (the emitted log and console lines are returned alongside)
and re-raises the same exception with a bare `raise`. -/
def handle_exception {α : Type} (module_name function_name : String)
    (func : CallContext → Except ExceptionInfo α) :
    CallContext → Except ExceptionInfo α × List String :=
  fun ctx =>
    match func ctx with
    | .ok v => (.ok v, [])
    | .error e =>
      (.error e,
       [buildLogMessage module_name function_name e ctx,
        "[ERROR] An error occurred while executing " ++ function_name ++ ": " ++ e.message,
        "Check the log file for more details."])

/-! ## Concrete states used by witnesses -/

/-- A freshly initialised LLM client with the default model parameters. -/
def demoLLMState : LLMClientState := LLMClientState.init "gemma3:12b" 0

/-- A memory factory whose configuration selected the window strategy. -/
def demoWindowFactory : MemoryFactory where
  memory_type := "window"
  window_size := 3
  max_token_limit := 100
  verbose := false

/-- A parser with one loaded schema and a built template object. -/
def demoParser : Parser :=
  { Parser.base with
    _schemas := [("review", [("gift", "Was the item purchased as a gift?"),
                             ("delivery_days", "How many days did delivery take?")])],
    _template := .tTemplate "Format the following message: {source} into the style: {style}" }

/-- A parser whose temperature has been raised away from zero. -/
def demoHotParser : Parser :=
  { Parser.base with _params := { temperature := (1 : Rat) } }

/-- An LLM oracle that always raises, exercising the exception path. -/
def demoFailingLLM : String × Rat → List Message → Except PyErr String :=
  fun _ _ => .error (.valueError "model unavailable")

/-! ## Helper lemmas -/

theorem pyOrS_falsy (v : Option String) (d : String) (h : v = none ∨ v = some "") :
    pyOrS v d = d := by
  rcases h with rfl | rfl <;> simp [pyOrS]

theorem pyOrR_falsy (v : Option Rat) (d : Rat) (h : v = none ∨ v = some 0) :
    pyOrR v d = d := by
  rcases h with rfl | rfl <;> simp [pyOrR]

theorem pyOrR_ne_zero (v : Option Rat) (d : Rat) (h : d ≠ 0) : pyOrR v d ≠ 0 := by
  cases v with
  | none => exact h
  | some r =>
    show (if r = 0 then d else r) ≠ 0
    by_cases hr : r = 0
    · rw [if_pos hr]
      exact h
    · rw [if_neg hr]
      exact hr

/-- The length of the split-scanner output: every word already being read
contributes one, and the remaining characters contribute one word per
word start. -/
theorem pySplitAux_length (cs : List Char) : ∀ acc : List Char,
    (pySplitAux cs acc).length
      = countWordStarts cs acc.isEmpty + (if acc = [] then 0 else 1) := by
  induction cs with
  | nil =>
    intro acc
    cases acc <;> simp [pySplitAux, countWordStarts]
  | cons c cs ih =>
    intro acc
    by_cases hc : isPyWs c
    · cases acc with
      | nil => simp [pySplitAux, countWordStarts, hc, ih]
      | cons a as => simp [pySplitAux, countWordStarts, hc, ih]
    · cases acc with
      | nil =>
        simp [pySplitAux, countWordStarts, hc, ih]
        omega
      | cons a as => simp [pySplitAux, countWordStarts, hc, ih]

/-- Unfolding the running count of `get_num_tokens_from_messages` into a
sum over the message list. -/
theorem foldl_count_eq_sum (f : PyMessage → Nat) (msgs : List PyMessage) :
    ∀ n : Nat, msgs.foldl (fun count m => count + f m) n = n + (msgs.map f).sum := by
  induction msgs with
  | nil => intro n; simp
  | cons m ms ih => intro n; simp [List.foldl, ih]; omega

/-- The temperature field after `load_params_from_config` only depends on
the `defaults` section, through the truthiness-guarded update. -/
theorem load_params_temperature (p : Parser) (config : ConfigData) :
    (p.load_params_from_config config)._params.temperature
      = match config.defaults with
        | some d => pyOrR d.temperature p._params.temperature
        | none => p._params.temperature := by
  unfold Parser.load_params_from_config
  cases config.defaults <;> cases config.examples <;> cases config.schemas <;>
    (simp [Parser.update_params]; split <;> simp)

/-! ## Claim theorems -/

/-- Claim C1: for every memory-type name, `MemoryFactory.build` returns
the wrapper matching the name (`BufferMemoryManager` for `"buffer"`,
`WindowMemoryManager` with the `window_size` parameter for `"window"`,
`TokenMemoryManager` with the `max_token_limit` parameter for `"token"`,
`SummaryMemoryManager` with the `max_token_limit` parameter for
`"summary"`) and raises `ValueError` exactly for every other name.  The
buffer clause assumes no strategy-specific keyword was forwarded, since
those are passed verbatim and would raise `TypeError` instead. -/
theorem memory_factory_build_dispatch (f : MemoryFactory) (llm : LLMClientState)
    (kwargs : BuildKwargs) :
    (f.memory_type = "buffer" → kwargs.window_size = none → kwargs.max_token_limit = none →
      ∃ inst, (f.build llm none kwargs).1
        = .ok (.bufferMemoryManager inst (kwargs.verbose.getD false)))
  ∧ (f.memory_type = "window" →
      ∃ inst, (f.build llm none kwargs).1
        = .ok (.windowMemoryManager inst (kwargs.window_size.getD f.window_size)
            (kwargs.verbose.getD f.verbose)))
  ∧ (f.memory_type = "token" →
      ∃ inst, (f.build llm none kwargs).1
        = .ok (.tokenMemoryManager inst (kwargs.max_token_limit.getD f.max_token_limit)
            (kwargs.verbose.getD f.verbose)))
  ∧ (f.memory_type = "summary" →
      ∃ inst, (f.build llm none kwargs).1
        = .ok (.summaryMemoryManager inst (kwargs.max_token_limit.getD f.max_token_limit)
            (kwargs.verbose.getD f.verbose)))
  ∧ (f.memory_type ∉ ["buffer", "window", "token", "summary"] →
      ∃ msg, (f.build llm none kwargs).1 = .error (.valueError msg))
  ∧ (∀ msg, (f.build llm none kwargs).1 = .error (.valueError msg) →
      f.memory_type ∉ ["buffer", "window", "token", "summary"]) := by
  refine ⟨?_, ?_, ?_, ?_, ?_, ?_⟩
  · intro h hw hm
    refine ⟨(LLMClient.infer none none false llm).1, ?_⟩
    simp [MemoryFactory.build, pyOrS, h, hw, hm]
  · intro h
    refine ⟨(LLMClient.infer none none false llm).1, ?_⟩
    simp [MemoryFactory.build, pyOrS, h]
  · intro h
    refine ⟨(LLMClient.infer none none true llm).1, ?_⟩
    simp [MemoryFactory.build, pyOrS, h]
  · intro h
    refine ⟨(LLMClient.infer none none true llm).1, ?_⟩
    simp [MemoryFactory.build, pyOrS, h]
  · intro h
    simp only [List.mem_cons, List.not_mem_nil, or_false, not_or] at h
    obtain ⟨h1, h2, h3, h4⟩ := h
    refine ⟨"Unknown memory type: " ++ f.memory_type, ?_⟩
    simp [MemoryFactory.build, pyOrS, h1, h2, h3, h4]
  · intro msg h hmem
    simp only [List.mem_cons, List.not_mem_nil, or_false] at hmem
    rcases hmem with h1 | h1 | h1 | h1 <;>
      (simp [MemoryFactory.build, pyOrS, h1] at h; try split at h) <;> simp_all

/-- Claim C2: `main` raises `ValueError` exactly when the entered mode
string is empty or is not one of the five valid modes; for each valid
mode it loads the configuration and dispatches to the function of that
exact name. -/
theorem main_mode_validation (fileRead : Except String (Option ConfigData)) (mode : String) :
    ((∃ msg, main fileRead mode = .error (.valueError msg))
      ↔ (mode = "" ∨ mode ∉ modeFunctionNames))
  ∧ (mode ∈ modeFunctionNames →
      main fileRead mode
        = .ok { conf := ConfigManager.init (load_configurations fileRead),
                dispatched := some mode }) := by
  constructor
  · by_cases h1 : mode = ""
    · subst h1
      simp [main, modeFunctionNames]
    · by_cases h2 : mode ∈ modeFunctionNames
      · simp [main, h1, h2]
      · simp [main, h1, h2]
  · intro h
    have h1 : mode ≠ "" := by
      rintro rfl
      revert h
      decide
    have hm : mode ∈ mainCallableGlobals := by
      simp only [modeFunctionNames, List.mem_cons, List.not_mem_nil, or_false] at h
      rcases h with rfl | rfl | rfl | rfl | rfl <;> decide
    simp [main, run_mode, h1, h, hm]

/-- Claim C3 (code bug): `ConfigManager.__init__` assigns `_config_data`
only inside the branch requiring a truthy mapping containing
`"defaults"`, so for an absent mapping or one without `"defaults"` the
schema/example/memory accessors raise `AttributeError` instead of
returning their documented defaults, and with a `defaults` section that
lacks `temperature`, `get_model_params` returns Python `None` for the
temperature (the falsy stored default `0.0` falls through the `or`),
never the documented `0.0`. -/
theorem configmanager_defaults_divergence :
    (ConfigManager.init none).get_schemas
      = .error (.attributeError "ConfigManager object has no attribute _config_data")
  ∧ (ConfigManager.init (some { schemas := some [("review", [("gift", "desc")])] })).get_schemas
      = .error (.attributeError "ConfigManager object has no attribute _config_data")
  ∧ (ConfigManager.init (some { defaults := some {} })).get_model_params
      = .ok { model := some "gemma3:12b", temperature := none }
  ∧ (ConfigManager.init none).get_memory_params
      = .error (.attributeError "ConfigManager object has no attribute _config_data") := by
  refine ⟨rfl, rfl, rfl, rfl⟩

/-- Claim C1 witness: the dispatch theorem applied to a concrete window
factory, a fresh client and empty kwargs. -/
theorem memory_factory_build_dispatch_witness :
    ∃ inst, (demoWindowFactory.build demoLLMState none {}).1
      = .ok (.windowMemoryManager inst 3 false) :=
  (memory_factory_build_dispatch demoWindowFactory demoLLMState {}).2.1 rfl

/-- Claim C2 witness: the mode `"chat"` dispatches to the function named
`"chat"` after loading the configuration (here: an unreadable file, so
the empty fallback). -/
theorem main_mode_validation_witness :
    main (.error "config file missing") "chat"
      = .ok { conf := ConfigManager.init none, dispatched := some "chat" } :=
  (main_mode_validation (.error "config file missing") "chat").2 (by decide)

/-- Claim C4 counterexample: on the empty string the formatter does not
return a one-element `HumanMessage` list; the falsy branch reads the
nonexistent `default_prompt` attribute and raises `AttributeError`. -/
theorem formatter_empty_string_counterexample :
    PromptManager.formatter (.pstr "") []
        = .error (.attributeError "PromptManager object has no attribute default_prompt")
      ∧ PromptManager.formatter (.pstr "") [] ≠ .ok [.humanMessage ""] :=
  ⟨rfl, fun h => by simp [PromptManager.formatter, PromptVal.truthy] at h⟩

/-- Claim C4 (amended): a non-empty string is returned as a one-element
`HumanMessage` list; a non-empty list is mapped elementwise to
`HumanMessage`s (length and order preserved); a `ChatPromptTemplate` is
formatted with the supplied keyword arguments; a truthy value of any
other type raises `ValueError`; and every falsy input (empty string,
empty list, `None`, falsy other values) raises `AttributeError`, because
the fallback branch reads the undefined attribute `default_prompt`. -/
theorem formatter_dispatch (prompt : PromptVal) (kwargs : List (String × String)) :
    (∀ s, prompt = .pstr s → s ≠ "" →
      PromptManager.formatter prompt kwargs = .ok [.humanMessage s])
  ∧ (∀ items, prompt = .plist items → items ≠ [] →
      PromptManager.formatter prompt kwargs = .ok (items.map PromptListItem.toMessage)
        ∧ (items.map PromptListItem.toMessage).length = items.length)
  ∧ (∀ t, prompt = .ptemplate t →
      PromptManager.formatter prompt kwargs = .ok (chatTemplateFormatMessages t kwargs))
  ∧ (∀ b, prompt = .pother b → b = true →
      PromptManager.formatter prompt kwargs
        = .error (.valueError "Unsupported prompt type. Must be str, list, or ChatPromptTemplate object."))
  ∧ (prompt.truthy = false →
      PromptManager.formatter prompt kwargs
        = .error (.attributeError "PromptManager object has no attribute default_prompt")) := by
  refine ⟨?_, ?_, ?_, ?_, ?_⟩
  · rintro s rfl hs
    simp [PromptManager.formatter, PromptVal.truthy, hs]
  · rintro items rfl hi
    exact ⟨by simp [PromptManager.formatter, PromptVal.truthy, hi], by simp⟩
  · rintro t rfl
    simp [PromptManager.formatter, PromptVal.truthy]
  · rintro b rfl rfl
    simp [PromptManager.formatter, PromptVal.truthy]
  · intro ht
    simp [PromptManager.formatter, ht]

/-- Claim C4 witness: the amended dispatch applied to a concrete
non-empty string. -/
theorem formatter_dispatch_witness :
    PromptManager.formatter (.pstr "What is 1+1?") []
      = .ok [.humanMessage "What is 1+1?"] :=
  (formatter_dispatch (.pstr "What is 1+1?") []).1 "What is 1+1?" rfl (by decide)

/-- Claim C5: the custom token counter returns exactly the number of
whitespace-separated words of the text (counted independently as word
starts), and the message-list variant sums that word count over the
extracted content of each message, with 0 for the empty list. -/
theorem custom_token_count_spec (text : String) (messages : List PyMessage) :
    CustomTokenCountLLM.get_num_tokens text = countWordStarts text.data true
  ∧ CustomTokenCountLLM.get_num_tokens_from_messages messages
      = (messages.map (fun m => CustomTokenCountLLM.get_num_tokens m.extractedContent)).sum
  ∧ CustomTokenCountLLM.get_num_tokens_from_messages [] = 0 := by
  refine ⟨?_, ?_, rfl⟩
  · unfold CustomTokenCountLLM.get_num_tokens pySplit
    rw [List.length_map, pySplitAux_length]
    simp
  · unfold CustomTokenCountLLM.get_num_tokens_from_messages
    rw [foldl_count_eq_sum]
    simp

/-- Claim C6: the schema-parser builder raises `ValueError` exactly when
the effective schema name (the argument, or the configured default when
the argument is falsy) is empty or not among the loaded schemas, and
otherwise returns the structured-output parser built from one
`ResponseSchema` per (name, description) field pair, in field order. -/
theorem create_schema_parser_spec (p : Parser) (schema_name : Option String) :
    ((∃ msg, p.createSchemaParser schema_name = .error (.valueError msg))
      ↔ (pyOrS schema_name p._params.schema_name = ""
          ∨ lookupSchema p._schemas (pyOrS schema_name p._params.schema_name) = none))
  ∧ (∀ fields,
      lookupSchema p._schemas (pyOrS schema_name p._params.schema_name) = some fields →
      pyOrS schema_name p._params.schema_name ≠ "" →
      p.createSchemaParser schema_name
        = .ok { response_schemas :=
            fields.map (fun f => { name := f.1, description := f.2 }) }) := by
  constructor
  · by_cases h : pyOrS schema_name p._params.schema_name = ""
    · simp [Parser.createSchemaParser, h]
    · cases hl : lookupSchema p._schemas (pyOrS schema_name p._params.schema_name) with
      | none => simp [Parser.createSchemaParser, h, hl]
      | some fields => simp [Parser.createSchemaParser, h, hl]
  · intro fields hl hne
    simp [Parser.createSchemaParser, hne, hl]

/-- Claim C6 witness: the builder applied to the loaded demo schema. -/
theorem create_schema_parser_spec_witness :
    demoParser.createSchemaParser (some "review")
      = .ok { response_schemas :=
          [{ name := "gift", description := "Was the item purchased as a gift?" },
           { name := "delivery_days", description := "How many days did delivery take?" }] } :=
  (create_schema_parser_spec demoParser (some "review")).2
    [("gift", "Was the item purchased as a gift?"),
     ("delivery_days", "How many days did delivery take?")] rfl (by decide)

/-- Claim C7 counterexample: after a first `infer` call cached a
`ChatOllama` handle, a second call requesting the custom token counter
returns a different, freshly constructed instance, so a later call does
not always return the first cached instance. -/
theorem infer_second_call_returns_new_instance :
    (LLMClient.infer none none true (LLMClient.infer none none false demoLLMState).2).1
      ≠ (LLMClient.infer none none false demoLLMState).1 := by decide

/-- Claim C7 (amended): no handle exists before the first call to
`infer`; a call with `custom_token_count` false returns the cached
instance unchanged when one exists, and otherwise constructs, caches and
returns a `ChatOllama`; a call with `custom_token_count` true always
constructs a fresh `CustomTokenCountLLM` from the stored model and
temperature, caches it (replacing any existing handle) and returns it. -/
theorem infer_lazy_caching (s : LLMClientState) (cm : Option String) (ct : Option Rat) :
    (LLMClientState.init s._model s._temperature)._chat_instance = none
  ∧ (∀ inst, s._chat_instance = some inst → LLMClient.infer cm ct false s = (inst, s))
  ∧ (s._chat_instance = none →
      LLMClient.infer cm ct false s
        = (ChatModel.mk s.nextObjId .chatOllama (pyOrS cm s._model) (pyOrR ct s._temperature),
           { s with
             _chat_instance :=
               some (ChatModel.mk s.nextObjId .chatOllama (pyOrS cm s._model)
                 (pyOrR ct s._temperature)),
             nextObjId := s.nextObjId + 1 }))
  ∧ (LLMClient.infer cm ct true s).1
      = ChatModel.mk s.nextObjId .customTokenCount s._model s._temperature
  ∧ (LLMClient.infer cm ct true s).2
      = { s with
          _chat_instance :=
            some (ChatModel.mk s.nextObjId .customTokenCount s._model s._temperature),
          nextObjId := s.nextObjId + 1 } := by
  refine ⟨rfl, ?_, ?_, rfl, rfl⟩
  · intro inst h
    simp [LLMClient.infer, h]
  · intro h
    simp [LLMClient.infer, h]

/-- Claim C7 witness: the amended caching behaviour on a fresh client. -/
theorem infer_lazy_caching_witness :
    LLMClient.infer none none false demoLLMState
      = (ChatModel.mk 0 .chatOllama "gemma3:12b" 0,
         LLMClientState.mk "gemma3:12b" 0
           (some (ChatModel.mk 0 .chatOllama "gemma3:12b" 0)) 1) :=
  (infer_lazy_caching demoLLMState none none).2.2.1 rfl

/-- Claim C8: `get_formatted_completion` leaves the template state
unchanged after it returns or raises — when a custom template is supplied
and the current template is non-empty (truthy) the original template is
restored even if the model call raises, when no custom template is
supplied the state is untouched, and all other parameter fields are
unchanged in every case. -/
theorem get_formatted_completion_frame (p : Parser)
    (source style custom_template model : Option String) (temperature : Option Rat)
    (llmCall : String × Rat → List Message → Except PyErr String) :
    ((p.get_formatted_completion source style custom_template model temperature llmCall).2._params
        = p._params
      ∧ (p.get_formatted_completion source style custom_template model temperature llmCall).2._model_name
        = p._model_name
      ∧ (p.get_formatted_completion source style custom_template model temperature llmCall).2._model_temperature
        = p._model_temperature
      ∧ (p.get_formatted_completion source style custom_template model temperature llmCall).2._schemas
        = p._schemas
      ∧ (p.get_formatted_completion source style custom_template model temperature llmCall).2._examples
        = p._examples)
  ∧ (optStrTruthy custom_template = true → p._template.truthy = true →
      (p.get_formatted_completion source style custom_template model temperature llmCall).2 = p)
  ∧ (optStrTruthy custom_template = false →
      (p.get_formatted_completion source style custom_template model temperature llmCall).2 = p) := by
  refine ⟨⟨?_, ?_, ?_, ?_, ?_⟩, ?_, ?_⟩ <;>
    unfold Parser.get_formatted_completion
  · by_cases hc : optStrTruthy custom_template
    · simp only [hc, if_true]
      split <;> rfl
    · simp [hc]
  · by_cases hc : optStrTruthy custom_template
    · simp only [hc, if_true]
      split <;> rfl
    · simp [hc]
  · by_cases hc : optStrTruthy custom_template
    · simp only [hc, if_true]
      split <;> rfl
    · simp [hc]
  · by_cases hc : optStrTruthy custom_template
    · simp only [hc, if_true]
      split <;> rfl
    · simp [hc]
  · by_cases hc : optStrTruthy custom_template
    · simp only [hc, if_true]
      split <;> rfl
    · simp [hc]
  · intro hc ht
    simp [hc, ht]
  · intro hc
    simp [hc]

/-- Claim C8 witness: a failing model call with a custom template on a
parser holding a built template restores the full state. -/
theorem get_formatted_completion_frame_witness :
    (demoParser.get_formatted_completion (some "hello") (some "pirate")
        (some "Say {source} in the style {style}") none none demoFailingLLM).2 = demoParser :=
  (get_formatted_completion_frame demoParser (some "hello") (some "pirate")
      (some "Say {source} in the style {style}") none none demoFailingLLM).2.1 rfl rfl

/-- Claim C9: `update_params` never assigns a falsy value — every keyword
whose value is absent, empty or zero leaves its parameter field
unchanged, keywords that are not `ParamsConfig` attributes are ignored,
and neither `update_params` nor `load_params_from_config` can change the
temperature parameter to zero once it is nonzero. -/
theorem update_params_skips_falsy (p : Parser) (kw : UpdateKwargs) (config : ConfigData) :
    ((kw.model = none ∨ kw.model = some "") →
      (p.update_params kw)._params.model = p._params.model)
  ∧ ((kw.temperature = none ∨ kw.temperature = some 0) →
      (p.update_params kw)._params.temperature = p._params.temperature)
  ∧ ((kw.prompt = none ∨ kw.prompt = some "") →
      (p.update_params kw)._params.prompt = p._params.prompt)
  ∧ ((kw.template = none ∨ kw.template = some "") →
      (p.update_params kw)._params.template = p._params.template
        ∧ (p.update_params kw)._template = p._template)
  ∧ ((kw.source = none ∨ kw.source = some "") →
      (p.update_params kw)._params.source = p._params.source)
  ∧ ((kw.style = none ∨ kw.style = some "") →
      (p.update_params kw)._params.style = p._params.style)
  ∧ ((kw.schema_name = none ∨ kw.schema_name = some "") →
      (p.update_params kw)._params.schema_name = p._params.schema_name)
  ∧ ((kw.schema_template = none ∨ kw.schema_template = some "") →
      (p.update_params kw)._params.schema_template = p._params.schema_template)
  ∧ (∀ extraKeys : List String,
      p.update_params { kw with extra := extraKeys } = p.update_params kw)
  ∧ (p._params.temperature ≠ 0 → (p.update_params kw)._params.temperature ≠ 0)
  ∧ (p._params.temperature ≠ 0 →
      (p.load_params_from_config config)._params.temperature ≠ 0) := by
  refine ⟨?_, ?_, ?_, ?_, ?_, ?_, ?_, ?_, ?_, ?_, ?_⟩
  · intro h; simp [Parser.update_params, pyOrS_falsy _ _ h]
  · intro h; simp [Parser.update_params, pyOrR_falsy _ _ h]
  · intro h; simp [Parser.update_params, pyOrS_falsy _ _ h]
  · intro h
    refine ⟨by simp [Parser.update_params, pyOrS_falsy _ _ h], ?_⟩
    rcases h with h | h <;> simp [Parser.update_params, h]
  · intro h; simp [Parser.update_params, pyOrS_falsy _ _ h]
  · intro h; simp [Parser.update_params, pyOrS_falsy _ _ h]
  · intro h; simp [Parser.update_params, pyOrS_falsy _ _ h]
  · intro h; simp [Parser.update_params, pyOrS_falsy _ _ h]
  · intro extraKeys; rfl
  · intro h
    exact pyOrR_ne_zero _ _ h
  · intro h
    rw [load_params_temperature]
    cases config.defaults with
    | none => exact h
    | some d => exact pyOrR_ne_zero _ _ h

/-- Claim C9 witness: an explicit zero temperature keyword leaves a
nonzero temperature untouched. -/
theorem update_params_skips_falsy_witness :
    (demoHotParser.update_params { temperature := some 0 })._params.temperature
      = demoHotParser._params.temperature :=
  (update_params_skips_falsy demoHotParser { temperature := some 0 } {}).2.1 (Or.inr rfl)

/-- Claim C10: the `handle_exception` decorator is observationally
transparent — the decorated call returns the wrapped call result when it
returns and re-raises the very same exception when it raises, never
swallowing it or substituting a different result. -/
theorem handle_exception_transparent {α : Type} (module_name function_name : String)
    (func : CallContext → Except ExceptionInfo α) (ctx : CallContext) :
    (handle_exception module_name function_name func ctx).1 = func ctx := by
  unfold handle_exception
  cases h : func ctx <;> simp [h]

end LangchainRepo
